import Mathlib

/-!
Shallow embedding of the authentication subsystem of the inkboard backend
(`app/core/security.py`, `app/services/auth_service.py`,
`app/services/otp_service.py`, `app/middleware/jwt_middleware.py`,
`app/api/deps/auth.py`, `app/api/routes/auth_router.py`), together with
theorems settling the spec claims about it.

Modelling conventions:
- timestamps are `Nat` (seconds since epoch), matching the integer `exp`/`iat`
  claims the code writes into JWTs;
- a JWT is its decoded payload paired with the key it was signed with; a
  signature verifies iff the keys coincide (claims here concern round-trips
  and claim handling, not cryptography);
- nondeterministic inputs of the code (current time, freshly minted jti,
  random OTP digits, external e-mail validation / delivery outcomes) are
  explicit parameters;
- fallible Python code is `Except`: `HTTPException` and uncaught exceptions
  become error values; database sessions are explicit record lists threaded
  through each operation, with commit/rollback modelled where the code calls
  them.
-/

deriving instance DecidableEq for Except

namespace Inkboard

/-- Process-wide configuration, from `app/core/config.py` (`Settings`):
the fields the auth subsystem reads. -/
structure Settings where
  SECRET_KEY : String
  ACCESS_TOKEN_EXPIRE_MINUTES : Nat
  REFRESH_TOKEN_EXPIRE_DAYS : Nat
  deriving Repr, DecidableEq

/-- The JWT claim set written by `create_access_token` / `create_refresh_token`
in `app/core/security.py`: sub, email, username, role, type, optional jti,
exp, iat. -/
structure Claims where
  sub : String
  email : String
  username : String
  role : String
  type : String
  jti : Option String
  exp : Nat
  iat : Nat
  deriving Repr, DecidableEq

/-- A signed token: the payload plus the key used by `jwt.encode`. Signature
verification in `jwt.decode` succeeds iff the verifying key equals the
signing key. -/
structure Jwt where
  payload : Claims
  sigKey : String
  deriving Repr, DecidableEq

/-- `jwt.encode(payload, key, algorithm)`. -/
def jwtEncode (payload : Claims) (key : String) : Jwt :=
  { payload := payload, sigKey := key }

/-- `app/core/security.py: create_access_token`. Sets type="access", no jti,
expiry now + ACCESS_TOKEN_EXPIRE_MINUTES minutes. -/
def create_access_token (s : Settings) (now : Nat)
    (user_id email username role : String) : Jwt :=
  jwtEncode
    { sub := user_id, email := email, username := username, role := role
      type := "access", jti := none
      exp := now + 60 * s.ACCESS_TOKEN_EXPIRE_MINUTES, iat := now }
    s.SECRET_KEY

/-- `app/core/security.py: create_refresh_token`. Mints a fresh jti
(`uuid.uuid4().hex`, here the explicit `jti` argument), sets type="refresh",
expiry now + REFRESH_TOKEN_EXPIRE_DAYS days; returns (token, jti, expires_at). -/
def create_refresh_token (s : Settings) (now : Nat) (jti : String)
    (user_id email username role : String) : Jwt × String × Nat :=
  let exp := now + 86400 * s.REFRESH_TOKEN_EXPIRE_DAYS
  (jwtEncode
    { sub := user_id, email := email, username := username, role := role
      type := "refresh", jti := some jti, exp := exp, iat := now }
    s.SECRET_KEY, jti, exp)

/-- `app/core/security.py: decode_token`. `jwt.decode` verifies the signature
and the `exp` claim (PyJWT rejects when `exp <= now`, zero leeway); on any
`PyJWTError` the function returns `None`. -/
def decode_token (s : Settings) (now : Nat) (t : Jwt) : Option Claims :=
  if t.sigKey = s.SECRET_KEY ∧ now < t.payload.exp then some t.payload else none

/-- The HTTP error a raised `HTTPException(status_code, detail)` carries. -/
structure HTTPError where
  status : Nat
  detail : String
  deriving Repr, DecidableEq

/-- `app/db/models/token.py: Token` — one ledger entry per issued refresh
token. -/
structure Token where
  id : Nat
  user_id : String
  jti : String
  token : Jwt
  user_agent : Option String
  ip_address : Option String
  expires_at : Nat
  revoked : Bool
  created_at : Nat
  revoked_at : Option Nat
  deriving Repr, DecidableEq

/-- `sqlalchemy Result.scalar_one_or_none()`: `none` on zero rows, the row on
exactly one, and `MultipleResultsFound` (a `SQLAlchemyError`) on two or more.
The `error` case models the raised exception. -/
def scalar_one_or_none {α : Type} (l : List α) : Except Unit (Option α) :=
  match l with
  | [] => .ok none
  | [r] => .ok (some r)
  | _ :: _ :: _ => .error ()

namespace AuthService

/-- `AuthService._is_refresh_valid`: SELECT the ledger row with this jti and
revoked == False (jti has a UNIQUE constraint, so `find?` returns the row
`scalar_one_or_none` would); true iff it exists and `expires_at` is strictly
in the future. The payload's `jti` claim may be absent (`payload.get("jti")`
is `None`), in which case no row matches. -/
def is_refresh_valid (db : List Token) (now : Nat) (jti : Option String) :
    Bool :=
  match db.find? (fun t => decide (some t.jti = jti ∧ t.revoked = false)) with
  | some t => decide (now < t.expires_at)
  | none => false

/-- `AuthService.refresh` (auth_service.py lines 258-295), the method the
router's POST /auth/refresh invokes. It decodes the presented token, requires
type == "refresh", requires `_is_refresh_valid(jti)`, and returns a freshly
minted access token. Every path only reads the ledger — the method contains
no INSERT or UPDATE — so the resulting ledger is returned unchanged on every
branch, mirroring the code. -/
def refresh (s : Settings) (db : List Token) (now : Nat)
    (refresh_token : Jwt) : Except HTTPError Jwt × List Token :=
  match decode_token s now refresh_token with
  | none => (.error ⟨401, "Invalid refresh token."⟩, db)
  | some payload =>
    if payload.type ≠ "refresh" then
      (.error ⟨401, "Invalid refresh token."⟩, db)
    else if is_refresh_valid db now payload.jti = false then
      (.error ⟨401, "Refresh token expired or revoked."⟩, db)
    else
      (.ok (create_access_token s now payload.sub payload.email
              payload.username payload.role), db)

end AuthService

/-- Concrete configuration for evaluating the refresh flow. -/
def c1Settings : Settings := ⟨"k", 15, 7⟩

/-- A refresh token minted at time 0 with jti "j1" for user u1. -/
def c1RefreshTok : Jwt :=
  (create_refresh_token c1Settings 0 "j1" "u1" "a@x.com" "alice" "user").1

/-- A ledger holding exactly the live, unrevoked entry for jti "j1". -/
def c1Ledger : List Token :=
  [⟨1, "u1", "j1", c1RefreshTok, none, none,
    (create_refresh_token c1Settings 0 "j1" "u1" "a@x.com" "alice" "user").2.2,
    false, 0, none⟩]

/-- The default `exempt_paths` of `JWTAuthMiddleware.__init__`
(app/middleware/jwt_middleware.py). The source list has a missing comma after
"/favicon.ico", so Python concatenates the last two literals into the single
entry "/favicon.ico/redoc"; the model reproduces that. -/
def exempt_paths : List String :=
  ["/api/v1/auth/", "/api/v1/inkboard/storage/", "/api/v1/home/trending",
   "/docs", "/openapi.json", "/favicon.ico/redoc"]

/-- Python `str.startswith`, evaluated on the character sequence. -/
def strStartsWith (path ex : String) : Bool :=
  ex.toList.isPrefixOf path.toList

/-- The Authorization header as `dispatch` classifies it: absent, present but
not of the shape "Bearer <token>", or a bearer token (already split off the
"Bearer " literal; the token itself is the structured `Jwt`). -/
inductive AuthHeader
  | missing
  | malformed (raw : String)
  | bearer (token : Jwt)
  deriving Repr, DecidableEq

/-- Outcome of `JWTAuthMiddleware.dispatch`: pass the request on to
`call_next` with `request.state.user` set to the decoded payload (or unset on
an exempt path), or short-circuit with a 401 JSON response. -/
inductive DispatchResult
  | next (user : Option Claims)
  | unauthorized (detail : String)
  deriving Repr, DecidableEq

namespace JWTAuthMiddleware

/-- `JWTAuthMiddleware.dispatch` (jwt_middleware.py lines 29-55): exempt
paths pass through untouched; a missing or non-Bearer header is rejected;
otherwise the token is run through `decode_token`, a `None` payload is
rejected, and any decoded payload — with no inspection of its "type" claim —
is attached to `request.state.user` and the request proceeds. -/
def dispatch (s : Settings) (now : Nat) (path : String)
    (header : AuthHeader) : DispatchResult :=
  if exempt_paths.any (fun ex => strStartsWith path ex) then
    .next none
  else
    match header with
    | .missing => .unauthorized "Missing or invalid Authorization header"
    | .malformed _ => .unauthorized "Missing or invalid Authorization header"
    | .bearer tok =>
      match decode_token s now tok with
      | none => .unauthorized "Invalid or expired token"
      | some payload => .next (some payload)

end JWTAuthMiddleware

/-- `app/api/deps/auth.py: get_current_user_id`: reads
`request.state.user` (the payload the middleware attached); 401 when absent,
otherwise the "sub" claim. -/
def get_current_user_id (user : Option Claims) : Except HTTPError String :=
  match user with
  | none => .error ⟨401, "Not authenticated"⟩
  | some payload => .ok payload.sub

/-- `app/db/models/otp.py: OtpCode` — one outstanding one-time code. -/
structure OtpCode where
  id : Nat
  user_id : String
  purpose : String
  code : String
  expires_at : Nat
  consumed : Bool
  consumed_at : Option Nat
  attempts : Nat
  created_at : Nat
  deriving Repr, DecidableEq

namespace OtpService

/-- The WHERE clause of `verify_otp`'s SELECT: same user and purpose, expiry
strictly in the future, consumed is false. -/
def outstanding (db : List OtpCode) (now : Nat) (user_id purpose : String) :
    List OtpCode :=
  db.filter fun r =>
    decide (r.user_id = user_id ∧ r.purpose = purpose ∧
            now < r.expires_at ∧ r.consumed = false)

/-- Committing an ORM-mutated record: the row with the record's primary key
takes the new value. -/
def updateOtp (db : List OtpCode) (r : OtpCode) : List OtpCode :=
  db.map fun x => if x.id = r.id then r else x

/-- `OtpService.verify_otp` (otp_service.py lines 94-140). The SELECT carries
ORDER BY created_at DESC, but its result is read with `scalar_one_or_none()`,
which raises `MultipleResultsFound` whenever more than one row matches —
before the ordering can matter — and that exception is caught as a
`SQLAlchemyError` and re-raised as HTTP 500. With zero matching rows the
result is false; with exactly one row the attempts counter is incremented and
committed, a code match consumes the record and returns true, a mismatch that
has driven attempts to 3 or more also consumes the record, and any mismatch
returns false. -/
def verify_otp (db : List OtpCode) (now : Nat)
    (user_id input_otp purpose : String) :
    Except HTTPError Bool × List OtpCode :=
  match scalar_one_or_none (outstanding db now user_id purpose) with
  | .error _ => (.error ⟨500, "Failed to verify OTP"⟩, db)
  | .ok none => (.ok false, db)
  | .ok (some r) =>
    let r1 : OtpCode := { r with attempts := r.attempts + 1 }
    let db1 := updateOtp db r1
    if r1.code = input_otp then
      (.ok true, updateOtp db1 { r1 with consumed := true
                                         consumed_at := some now })
    else if 3 ≤ r1.attempts then
      (.ok false, updateOtp db1 { r1 with consumed := true
                                          consumed_at := some now })
    else
      (.ok false, db1)

/-- External outcomes `store_and_send_otp` depends on: the result of the
network-backed e-mail deliverability check, and whether `send_email` raises. -/
structure OtpEnv where
  email_valid : Bool
  send_ok : Bool
  deriving Repr, DecidableEq

/-- `OtpService.store_and_send_otp` (otp_service.py lines 39-92): an invalid
e-mail returns `ok false` with no record written; otherwise the OtpRecord
(expiry now + 600 seconds, attempts 0, consumed false) is added and committed
before delivery is attempted, and a raising `send_email` surfaces as the
catch-all HTTP 500 — with the record already durably stored. `newId` is the
fresh primary key and `otp` the generated code. -/
def store_and_send_otp (env : OtpEnv) (db : List OtpCode) (now : Nat)
    (newId : Nat) (otp : String) (user_id _email purpose : String) :
    Except HTTPError Bool × List OtpCode :=
  if env.email_valid = false then (.ok false, db)
  else
    let record : OtpCode :=
      ⟨newId, user_id, purpose, otp, now + 600, false, none, 0, now⟩
    let db1 := db ++ [record]
    if env.send_ok then (.ok true, db1)
    else (.error ⟨500, "Failed to process OTP request"⟩, db1)

end OtpService

/-- Two outstanding codes for the same (user, purpose): both unexpired and
unconsumed at time 100, the newer one (created_at 20) carrying code
"222222". -/
def c4Db : List OtpCode :=
  [⟨1, "u1", "email_verification", "111111", 1000, false, none, 0, 10⟩,
   ⟨2, "u1", "email_verification", "222222", 1000, false, none, 0, 20⟩]

/-- A single outstanding code whose attempts counter already stands at 2. -/
def c5Rec : OtpCode :=
  ⟨1, "u1", "email_verification", "111111", 1000, false, none, 2, 10⟩

/-- A store holding only `c5Rec` plus an already-consumed sibling. -/
def c5Db : List OtpCode :=
  [c5Rec, ⟨2, "u1", "email_verification", "999999", 1000, true, some 50, 1, 5⟩]

/-- A store with one consumed and one outstanding code, distinct primary
keys. -/
def c6Db : List OtpCode :=
  [⟨1, "u1", "email_verification", "111111", 1000, true, some 40, 1, 10⟩,
   ⟨2, "u1", "email_verification", "222222", 1000, false, none, 0, 20⟩]

/-- Models passlib hash identification for
`CryptContext(schemes=["bcrypt"])` (app/core/security.py line 7): a hash
string is identifiable iff it carries a bcrypt scheme marker. -/
def bcryptIdentify (h : String) : Bool :=
  strStartsWith h "$2a$" || strStartsWith h "$2b$" || strStartsWith h "$2y$"

/-- Abstract stand-in for the bcrypt digest, deterministic in (salt,
plaintext). The claims below depend only on determinism and hash
identifiability, never on cryptographic properties of the digest. -/
def bcryptDigest (salt plain : String) : Nat :=
  plain.toList.foldl (fun a c => (a * 31 + c.toNat) % 1000003)
    (salt.toList.foldl (fun a c => (a * 31 + c.toNat) % 1000003) 7)

/-- Python `str.lower`, applied character by character (e-mail addresses are
ASCII here). -/
def pyLower (s : String) : String :=
  String.mk (s.toList.map Char.toLower)

/-- Split a character list at its first dot. -/
def splitFirstDot : List Char → Option (List Char × List Char)
  | [] => none
  | c :: cs =>
    if c = '.' then some ([], cs)
    else
      match splitFirstDot cs with
      | some (a, b) => some (c :: a, b)
      | none => none

/-- `pwd_context.hash` (`hash_password`, security.py lines 9-11) for the
bcrypt scheme, with the random salt made an explicit argument:
"$2b$12$" ++ salt ++ "." ++ digest. -/
def hash_password (salt plain : String) : String :=
  "$2b$12$" ++ salt ++ "." ++ toString (bcryptDigest salt plain)

/-- Modelled bcrypt verification of an identified hash: recover the salt and
digest recorded after the "$2b$12$" marker and recompute. -/
def bcryptCheck (plain hashed : String) : Bool :=
  match splitFirstDot (hashed.toList.drop 7) with
  | some (salt, dig) =>
    decide (String.mk dig
      = toString (bcryptDigest (String.mk salt) plain))
  | none => false

/-- The exception passlib raises for a hash string it cannot identify:
`UnknownHashError`, a `ValueError`. -/
inductive PasslibErr
  | unknownHash
  deriving Repr, DecidableEq

/-- Models `CryptContext.verify` of passlib as documented: returns a boolean
verdict for an identifiable hash and raises `UnknownHashError` otherwise. -/
def cryptContextVerify (plain hashed : String) : Except PasslibErr Bool :=
  if bcryptIdentify hashed then .ok (bcryptCheck plain hashed)
  else .error .unknownHash

/-- `app/core/security.py: verify_password` (lines 13-15): a bare
delegation to `pwd_context.verify`, with no try/except of its own. -/
def verify_password (plain_password hashed_password : String) :
    Except PasslibErr Bool :=
  cryptContextVerify plain_password hashed_password

/-- `app/db/models/user.py: User` — the columns the auth subsystem reads or
writes (profile columns such as first/last name, bio, pfp and the
timestamps are never touched by the auth flows and are omitted). -/
structure User where
  id : String
  email : String
  username : String
  hashed_password : String
  is_active : Bool
  is_verified : Bool
  role : String
  deriving Repr, DecidableEq

/-- An exception escaping a service method: an `HTTPException` raised by
design, or an uncaught `ValueError` (passlib's UnknownHashError) that the
except clauses — which name only HTTPException and SQLAlchemyError — let
propagate. -/
inductive PyErr
  | http (e : HTTPError)
  | valueError
  deriving Repr, DecidableEq

/-- `app/schemas/auth.py: LoginResponse` (a TokenPair). -/
structure LoginResponse where
  access_token : Jwt
  refresh_token : Jwt
  token_type : String
  deriving Repr, DecidableEq

namespace AuthService

/-- `AuthService.login` (auth_service.py lines 222-255) with
`_issue_token_pair` (lines 346-387) inlined: look up the user by lowercased
e-mail (a unique column, read with `scalar_one_or_none`); when the user is
absent, or present but the password hash does not verify, fail with the one
401 "Invalid email or password."; otherwise mint an access token and a
refresh token with a fresh `jti`, append the ledger row and return the
pair. A raising `pwd_context.verify` escapes as an uncaught ValueError. -/
def login (s : Settings) (users : List User) (tokens : List Token)
    (now : Nat) (newTokenId : Nat) (jti : String)
    (user_agent ip_address : Option String) (email password : String) :
    Except PyErr LoginResponse × List Token :=
  match scalar_one_or_none
      (users.filter fun u => decide (u.email = pyLower email)) with
  | .error _ =>
    (.error (.http ⟨500, "Internal server error during login."⟩), tokens)
  | .ok none =>
    (.error (.http ⟨401, "Invalid email or password."⟩), tokens)
  | .ok (some user) =>
    match verify_password password user.hashed_password with
    | .error _ => (.error .valueError, tokens)
    | .ok false =>
      (.error (.http ⟨401, "Invalid email or password."⟩), tokens)
    | .ok true =>
      let access := create_access_token s now user.id user.email
        user.username user.role
      let minted := create_refresh_token s now jti user.id user.email
        user.username user.role
      let row : Token := ⟨newTokenId, user.id, minted.2.1, minted.1,
        user_agent, ip_address, minted.2.2, false, now, none⟩
      (.ok ⟨access, minted.1, "bearer"⟩, tokens ++ [row])

end AuthService

/-- A registered user whose stored hash was produced from password
"right" with salt "ab". -/
def c9User : User :=
  ⟨"u1", "bob@x.com", "bob", hash_password "ab" "right", true, true, "user"⟩

/-- A SQLAlchemy session over one table: durable committed rows plus rows
added but not yet committed. `commit` makes pending rows durable;
`rollback` discards only the pending rows — it cannot undo a commit. -/
structure Session (α : Type) where
  committed : List α
  pending : List α
  deriving Repr, DecidableEq

/-- `session.add(x)`. -/
def Session.add {α : Type} (s : Session α) (x : α) : Session α :=
  { s with pending := s.pending ++ [x] }

/-- `session.commit()`. -/
def Session.commit {α : Type} (s : Session α) : Session α :=
  ⟨s.committed ++ s.pending, []⟩

/-- `session.rollback()`: discards uncommitted work only. -/
def Session.rollback {α : Type} (s : Session α) : Session α :=
  { s with pending := [] }

/-- What a SELECT issued through the same (autoflushing) session sees. -/
def Session.rows {α : Type} (s : Session α) : List α :=
  s.committed ++ s.pending

/-- `app/schemas/auth.py: SignupRequest`. -/
structure SignupRequest where
  email : String
  username : String
  password : String
  deriving Repr, DecidableEq

/-- `app/schemas/auth.py: SignupResponse`. -/
structure SignupResponse where
  message : String
  success : Bool
  deriving Repr, DecidableEq

/-- External outcomes during signup: the deliverability check signup runs
itself, and the OTP service's environment (its own deliverability re-check
and the send outcome). The checks hit the network and may disagree between
calls. -/
structure SignupEnv where
  email_valid : Bool
  otpEnv : OtpService.OtpEnv
  deriving Repr, DecidableEq

/-- The state `signup` touches: the user table through its session, and the
OTP table (whose service commits every write before returning). -/
structure SignupDb where
  users : Session User
  otps : List OtpCode
  deriving Repr, DecidableEq

namespace AuthService

/-- `AuthService.signup` (auth_service.py lines 149-219): reject when a row
matches the lowercased e-mail or the username (the SELECT is read with
`scalar_one_or_none`, whose MultipleResultsFound lands in the
SQLAlchemyError handler: rollback and 500); reject an undeliverable e-mail;
otherwise add the unverified user and COMMIT, then call
`store_and_send_otp`. When that returns False the code runs
`session.rollback()` — which discards only uncommitted work — and raises
500; when it raises an HTTPException, the bare `raise` re-raises it with no
rollback at all. `uid` is the fresh user id, `salt` the bcrypt salt, `otp`
and `newOtpId` the generated code and its key. (The IntegrityError handler
for a concurrent duplicate INSERT is not modelled; no claim exercises
it.) -/
def signup (env : SignupEnv) (db : SignupDb) (now : Nat)
    (uid salt otp : String) (newOtpId : Nat) (req : SignupRequest) :
    Except HTTPError SignupResponse × SignupDb :=
  match scalar_one_or_none (db.users.rows.filter fun u =>
      decide (u.email = pyLower req.email ∨ u.username = req.username)) with
  | .error _ =>
    (.error ⟨500, "Internal server error during signup."⟩,
     { db with users := db.users.rollback })
  | .ok (some _) =>
    (.error ⟨400, "Email or username already exists."⟩, db)
  | .ok none =>
    if env.email_valid = false then
      (.error ⟨400, "Invalid email address. Please provide a valid email."⟩,
       db)
    else
      let user : User := ⟨uid, pyLower req.email, req.username,
        hash_password salt req.password, true, false, "user"⟩
      let db1 : SignupDb := { db with users := (db.users.add user).commit }
      match OtpService.store_and_send_otp env.otpEnv db1.otps now newOtpId
          otp uid (pyLower req.email) "email_verification" with
      | (.ok true, otps2) =>
        (.ok ⟨"Signup successful. Please check your email for verification code.",
              true⟩,
         { db1 with otps := otps2 })
      | (.ok false, otps2) =>
        (.error ⟨500, "Failed to send verification email. Please try again."⟩,
         { users := db1.users.rollback, otps := otps2 })
      | (.error e, otps2) =>
        (.error e, { db1 with otps := otps2 })

end AuthService

/-- Signup environment in which the e-mail passes signup's own check but the
deliverability re-check inside `store_and_send_otp` fails, so OTP delivery
does not succeed. -/
def c2Env : SignupEnv := ⟨true, ⟨false, true⟩⟩

/-- The signup request of the C2 scenario. -/
def c2Req : SignupRequest := ⟨"a@x.com", "alice", "Password1!"⟩

/-- The persistent state the password-reset flow touches. -/
structure Store where
  users : List User
  otps : List OtpCode
  tokens : List Token
  deriving Repr, DecidableEq

/-- A ledger row is live iff it is not revoked and its expiry is strictly in
the future (spec section 4.3). -/
def Token.isLive (t : Token) (now : Nat) : Bool :=
  !t.revoked && decide (now < t.expires_at)

/-- Spec section 4.3 `revoke`, applied to every ledger row of one user:
idempotently set revoked and revoked_at on each of the user's non-revoked
rows. -/
def revoke_all_user_tokens (tokens : List Token) (now : Nat)
    (uid : String) : List Token :=
  tokens.map fun t =>
    if t.user_id = uid ∧ t.revoked = false
    then { t with revoked := true, revoked_at := some now } else t

/-- Modelled from the spec: `AuthService.reset_password` is missing from the
repository sources — `auth_router.py` line 208 awaits
`auth_service.reset_password(req.otp, req.new_password)`, but `AuthService`
defines no such method. Spec section 4.5 (Forgot/Reset Password) gives the
flow: verify the code through the OTP engine with purpose=password_reset; on
success re-hash and store the new password and revoke all live refresh
tokens of that user; on failure surface InvalidOrExpiredOtp and mutate
nothing else. -/
def reset_password (st : Store) (now : Nat)
    (user_id new_password salt otp : String) :
    Except HTTPError Unit × Store :=
  match OtpService.verify_otp st.otps now user_id otp "password_reset" with
  | (.error e, otps1) => (.error e, { st with otps := otps1 })
  | (.ok false, otps1) =>
    (.error ⟨400, "Invalid or expired OTP."⟩, { st with otps := otps1 })
  | (.ok true, otps1) =>
    (.ok (),
     { users := st.users.map fun u =>
         if u.id = user_id
         then { u with hashed_password := hash_password salt new_password }
         else u
       otps := otps1
       tokens := revoke_all_user_tokens st.tokens now user_id })

/-- Store of the C3 witness: one user, one outstanding password-reset code,
two live ledger rows of that user, one revoked row, and a live row of
another user. -/
def c3Store : Store :=
  { users := [c9User]
    otps := [⟨1, "u1", "password_reset", "654321", 1000, false, none, 0, 10⟩]
    tokens :=
      [⟨1, "u1", "ja", c1RefreshTok, none, none, 5000, false, 0, none⟩,
       ⟨2, "u1", "jb", c1RefreshTok, none, none, 9000, false, 10, none⟩,
       ⟨3, "u1", "jc", c1RefreshTok, none, none, 9000, true, 10, some 20⟩,
       ⟨4, "u2", "jd", c1RefreshTok, none, none, 9000, false, 10, none⟩] }

end Inkboard

namespace Inkboard

/-- C7: before expiry, decoding an access token recovers the encoded subject,
email, username and role; at or after expiry, decode returns the failure
sentinel `none` even though the signing key (signature) is unchanged. -/
theorem access_token_roundtrip (s : Settings) (now t u : Nat)
    (user_id email username role : String)
    (hbefore : t < now + 60 * s.ACCESS_TOKEN_EXPIRE_MINUTES)
    (hafter : now + 60 * s.ACCESS_TOKEN_EXPIRE_MINUTES ≤ u) :
    (∃ c : Claims,
       decode_token s t (create_access_token s now user_id email username role)
         = some c ∧
       c.sub = user_id ∧ c.email = email ∧ c.username = username ∧
       c.role = role) ∧
    decode_token s u (create_access_token s now user_id email username role)
      = none := by
  constructor
  · refine ⟨{ sub := user_id, email := email, username := username, role := role
              type := "access", jti := none
              exp := now + 60 * s.ACCESS_TOKEN_EXPIRE_MINUTES, iat := now },
      ?_, rfl, rfl, rfl, rfl⟩
    simp [decode_token, create_access_token, jwtEncode, hbefore]
  · simp [decode_token, create_access_token, jwtEncode, Nat.not_lt.mpr hafter]

/-- Witness for C7 at a concrete configuration and clock. -/
theorem access_token_roundtrip_witness :
    (100 : Nat) < 100 + 60 * 15 ∧ (100 : Nat) + 60 * 15 ≤ 2000 ∧
    ((∃ c : Claims,
        decode_token ⟨"k", 15, 7⟩ 100
          (create_access_token ⟨"k", 15, 7⟩ 100 "u1" "a@x.com" "alice" "user")
          = some c ∧
        c.sub = "u1" ∧ c.email = "a@x.com" ∧ c.username = "alice" ∧
        c.role = "user") ∧
     decode_token ⟨"k", 15, 7⟩ 2000
       (create_access_token ⟨"k", 15, 7⟩ 100 "u1" "a@x.com" "alice" "user")
       = none) :=
  ⟨by norm_num, by norm_num,
   access_token_roundtrip ⟨"k", 15, 7⟩ 100 100 2000 "u1" "a@x.com" "alice"
     "user" (by norm_num) (by norm_num)⟩

/-- C1: evaluation of `AuthService.refresh` at a live ledger entry shows the
flow is not single-use. The first redemption of the refresh token with jti
"j1" succeeds, yet it leaves the ledger byte-for-byte unchanged (the jti is
not revoked, no new ledger record is created, no new refresh token is
issued), and a second redemption of the very same token at a later time
succeeds again instead of failing with the InvalidOrExpiredToken
classification. -/
theorem refresh_redemption_not_single_use :
    (AuthService.refresh c1Settings c1Ledger 10 c1RefreshTok).1.isOk = true ∧
    (AuthService.refresh c1Settings c1Ledger 10 c1RefreshTok).2 = c1Ledger ∧
    (AuthService.refresh c1Settings
        (AuthService.refresh c1Settings c1Ledger 10 c1RefreshTok).2
        20 c1RefreshTok).1.isOk = true := by
  refine ⟨?_, ?_, ?_⟩ <;> decide

/-- C10: the middleware gate never inspects the token-type discriminator.
Any token whose signature verifies against the configured key and whose
expiry lies in the future — in particular one carrying type = "refresh" — is
attached to the request state and the request proceeds to `call_next`, and
`get_current_user_id` then hands its subject to the business logic. -/
theorem middleware_accepts_refresh_type_token (s : Settings) (now : Nat)
    (path : String) (tok : Jwt)
    (hpath : exempt_paths.any (fun ex => strStartsWith path ex) = false)
    (hsig : tok.sigKey = s.SECRET_KEY)
    (hexp : now < tok.payload.exp)
    (_htype : tok.payload.type = "refresh") :
    JWTAuthMiddleware.dispatch s now path (.bearer tok)
      = .next (some tok.payload) ∧
    get_current_user_id (some tok.payload) = .ok tok.payload.sub := by
  constructor
  · simp [JWTAuthMiddleware.dispatch, hpath, decode_token, hsig, hexp]
  · rfl

/-- Witness for C10: a refresh token accepted on the non-exempt articles
route. -/
theorem middleware_accepts_refresh_type_token_witness :
    (exempt_paths.any
       (fun ex => strStartsWith "/api/v1/articles" ex) = false) ∧
    (c1RefreshTok.sigKey = c1Settings.SECRET_KEY) ∧
    ((10 : Nat) < c1RefreshTok.payload.exp) ∧
    (c1RefreshTok.payload.type = "refresh") ∧
    (JWTAuthMiddleware.dispatch c1Settings 10 "/api/v1/articles"
        (.bearer c1RefreshTok) = .next (some c1RefreshTok.payload) ∧
     get_current_user_id (some c1RefreshTok.payload)
        = .ok c1RefreshTok.payload.sub) :=
  ⟨by decide, by decide, by decide, by decide,
   middleware_accepts_refresh_type_token c1Settings 10 "/api/v1/articles"
     c1RefreshTok (by decide) (by decide) (by decide) (by decide)⟩

/-- C4: evaluating `verify_otp` with two outstanding records for the same
(user, purpose), submitting the code of the most recently created one. The
code does not select the newest record and compare: `scalar_one_or_none`
raises `MultipleResultsFound`, which is caught as a `SQLAlchemyError` and
surfaced as HTTP 500, with no attempts increment and no comparison performed
— verification errors merely because several outstanding records exist. -/
theorem verify_otp_errors_on_multiple_outstanding :
    OtpService.verify_otp c4Db 100 "u1" "222222" "email_verification"
      = (.error ⟨500, "Failed to verify OTP"⟩, c4Db) := by
  decide

/-- Helper: if the only outstanding record for (user, purpose) at time `now`
is `r`, then after overwriting the row with id `r.id` (in two steps, as
`verify_otp` commits the attempts increment and then the consumed flag) with
a consumed record, nothing is outstanding at any time `now2 ≥ now`. -/
theorem outstanding_nil_after_consume
    (db : List OtpCode) (now now2 : Nat) (r r1 r2 : OtpCode)
    (user_id purpose : String)
    (hsel : OtpService.outstanding db now user_id purpose = [r])
    (hid1 : r1.id = r.id) (hid2 : r2.id = r.id)
    (hcons : r2.consumed = true)
    (hnow : now ≤ now2) :
    OtpService.outstanding
        (OtpService.updateOtp (OtpService.updateOtp db r1) r2)
        now2 user_id purpose = [] := by
  rw [OtpService.outstanding, List.filter_eq_nil_iff]
  intro x hx
  simp only [decide_eq_true_eq, not_and]
  intro hu hp hexp
  rcases List.mem_map.mp hx with ⟨y, hy, hxy⟩
  rcases List.mem_map.mp hy with ⟨z, hz, hyz⟩
  by_cases hz1 : z.id = r1.id
  · have hyr1 : y = r1 := by rw [← hyz, if_pos hz1]
    have hxr2 : x = r2 := by
      rw [← hxy, hyr1, if_pos (hid1.trans hid2.symm)]
    rw [hxr2, hcons]
    simp
  · have hyzz : y = z := by rw [← hyz, if_neg hz1]
    by_cases hy2 : y.id = r2.id
    · have hxr2 : x = r2 := by rw [← hxy, if_pos hy2]
      rw [hxr2, hcons]
      simp
    · have hxz : x = z := by rw [← hxy, if_neg hy2, hyzz]
      -- x is an untouched row of db satisfying the predicate at now2; then
      -- it satisfied it at now, so it is the single selected row r — but its
      -- id differs from r1.id = r.id, a contradiction.
      intro hcx
      have hxin : x ∈ OtpService.outstanding db now user_id purpose := by
        rw [OtpService.outstanding]
        refine List.mem_filter.mpr ⟨hxz ▸ hz, ?_⟩
        simp only [decide_eq_true_eq]
        exact ⟨hu, hp, lt_of_le_of_lt hnow hexp, hcx⟩
      rw [hsel] at hxin
      have hxr : x = r := List.mem_singleton.mp hxin
      apply hz1
      rw [← hxz, hxr, hid1]

/-- C5: with exactly one outstanding record for (user, purpose) whose
attempts counter stands at 2, a wrong code submitted on the attempt that
drives the counter to the ceiling of 3 returns false yet marks the record
consumed, and every subsequent verify call — whatever code is supplied,
including the correct one, at any later time — returns false and changes
nothing. -/
theorem otp_attempts_ceiling (db : List OtpCode) (now now2 : Nat)
    (r : OtpCode) (user_id purpose wrong any_code : String)
    (hsel : OtpService.outstanding db now user_id purpose = [r])
    (hatt : r.attempts = 2)
    (hwrong : r.code ≠ wrong)
    (hnow : now ≤ now2) :
    (OtpService.verify_otp db now user_id wrong purpose).1 = .ok false ∧
    (∀ x ∈ (OtpService.verify_otp db now user_id wrong purpose).2,
        x.id = r.id → x.consumed = true) ∧
    OtpService.verify_otp
        (OtpService.verify_otp db now user_id wrong purpose).2
        now2 user_id any_code purpose
      = (.ok false, (OtpService.verify_otp db now user_id wrong purpose).2) := by
  have hfirst :
      OtpService.verify_otp db now user_id wrong purpose
        = (.ok false,
           OtpService.updateOtp
             (OtpService.updateOtp db { r with attempts := r.attempts + 1 })
             { r with attempts := r.attempts + 1, consumed := true
                      consumed_at := some now }) := by
    unfold OtpService.verify_otp
    rw [hsel]
    show (if ({ r with attempts := r.attempts + 1 } : OtpCode).code = wrong
          then _ else _) = _
    rw [if_neg (show ¬ ({ r with attempts := r.attempts + 1 } :
          OtpCode).code = wrong from hwrong)]
    rw [if_pos (show 3 ≤ ({ r with attempts := r.attempts + 1 } :
          OtpCode).attempts by show 3 ≤ r.attempts + 1; omega)]
  refine ⟨by rw [hfirst], ?_, ?_⟩
  · rw [hfirst]
    intro x hx hid
    rcases List.mem_map.mp hx with ⟨y, _hy, hxy⟩
    dsimp only at hxy
    by_cases hy2 : y.id = r.id
    · rw [if_pos hy2] at hxy
      rw [← hxy]
    · rw [if_neg hy2] at hxy
      rw [← hxy] at hid
      exact absurd hid hy2
  · have houts :
        OtpService.outstanding
          (OtpService.verify_otp db now user_id wrong purpose).2
          now2 user_id purpose = [] := by
      rw [hfirst]
      exact outstanding_nil_after_consume db now now2 r _ _ user_id purpose
        hsel rfl rfl rfl hnow
    generalize hdb2 : (OtpService.verify_otp db now user_id wrong
        purpose).2 = db2 at houts ⊢
    unfold OtpService.verify_otp
    rw [houts]
    rfl

/-- Witness for C5: the single outstanding record `c5Rec` (attempts already
2, code "111111"), a third wrong submission "000000" at time 100, then a
resubmission of the correct code "111111" at time 200. -/
theorem otp_attempts_ceiling_witness :
    (OtpService.outstanding c5Db 100 "u1" "email_verification" = [c5Rec]) ∧
    c5Rec.attempts = 2 ∧ c5Rec.code ≠ "000000" ∧ (100 : Nat) ≤ 200 ∧
    ((OtpService.verify_otp c5Db 100 "u1" "000000"
        "email_verification").1 = .ok false ∧
     (∀ x ∈ (OtpService.verify_otp c5Db 100 "u1" "000000"
         "email_verification").2, x.id = c5Rec.id → x.consumed = true) ∧
     OtpService.verify_otp
         (OtpService.verify_otp c5Db 100 "u1" "000000"
           "email_verification").2 200 "u1" "111111" "email_verification"
       = (.ok false,
          (OtpService.verify_otp c5Db 100 "u1" "000000"
            "email_verification").2)) :=
  ⟨by decide, by decide, by decide, by decide,
   otp_attempts_ceiling c5Db 100 200 c5Rec "u1" "email_verification"
     "000000" "111111" (by decide) (by decide) (by decide) (by decide)⟩

/-- Helper: `scalar_one_or_none` returns a row only when it was the single
row of the result set. -/
theorem scalar_one_or_none_eq_some {α : Type} (l : List α) (r : α)
    (h : scalar_one_or_none l = .ok (some r)) : l = [r] := by
  match l with
  | [] => simp [scalar_one_or_none] at h
  | [a] =>
    simp only [scalar_one_or_none, Except.ok.injEq, Option.some.injEq] at h
    rw [h]
  | a :: b :: t => simp [scalar_one_or_none] at h

/-- Helper: a member of an updated store is the updated record or an
original row. -/
theorem mem_updateOtp (l : List OtpCode) (u y : OtpCode)
    (hy : y ∈ OtpService.updateOtp l u) : y = u ∨ y ∈ l := by
  rcases List.mem_map.mp hy with ⟨z, hz, hzy⟩
  by_cases h : z.id = u.id
  · left
    rw [← hzy, if_pos h]
  · right
    rw [← hzy, if_neg h]
    exact hz

/-- C6: the consumed flag is absorbing. (a) A record whose consumed flag is
set is never in the result set of the SELECT that `verify_otp` draws its
record from, so no verify call can select it or return true on its account;
(b) `verify_otp` never clears consumed: any row of the store carrying the id
of a consumed record is still consumed afterwards (ids are unique — the
primary-key constraint); (c) `store_and_send_otp` only appends a fresh
record, leaving every consumed record in place untouched; (d) a verify call
that returns true did so on the account of a record that was not consumed
(and was unexpired and matching) beforehand. -/
theorem otp_consumed_is_absorbing
    (db : List OtpCode) (now : Nat) (user_id code purpose : String)
    (env : OtpService.OtpEnv) (newId : Nat) (otp email : String)
    (hnd : (db.map OtpCode.id).Nodup) :
    (∀ r ∈ db, r.consumed = true →
       r ∉ OtpService.outstanding db now user_id purpose) ∧
    (∀ x ∈ db, x.consumed = true →
       ∀ y ∈ (OtpService.verify_otp db now user_id code purpose).2,
         y.id = x.id → y.consumed = true) ∧
    (∀ x ∈ db, x.consumed = true →
       x ∈ (OtpService.store_and_send_otp env db now newId otp user_id email
              purpose).2) ∧
    ((OtpService.verify_otp db now user_id code purpose).1 = .ok true →
       ∃ r ∈ db, r.consumed = false ∧ r.code = code ∧ r.user_id = user_id ∧
         r.purpose = purpose ∧ now < r.expires_at) := by
  have hinj : ∀ x ∈ db, ∀ y ∈ db, x.id = y.id → x = y := by
    intro x hx y hy hxy
    exact List.inj_on_of_nodup_map hnd hx hy hxy
  refine ⟨?_, ?_, ?_, ?_⟩
  · intro r _ hc hmem
    rcases List.mem_filter.mp hmem with ⟨_, hpred⟩
    simp only [decide_eq_true_eq] at hpred
    have hfalse := hpred.2.2.2
    rw [hc] at hfalse
    exact Bool.noConfusion hfalse
  · intro x hx hc y hy hid
    rcases hscal : scalar_one_or_none
        (OtpService.outstanding db now user_id purpose) with e | o
    · simp only [OtpService.verify_otp, hscal] at hy
      have hyx := hinj y hy x hx hid
      rw [hyx]
      exact hc
    · cases o with
      | none =>
        simp only [OtpService.verify_otp, hscal] at hy
        have hyx := hinj y hy x hx hid
        rw [hyx]
        exact hc
      | some r =>
        have hout := scalar_one_or_none_eq_some _ _ hscal
        have hrmem : r ∈ OtpService.outstanding db now user_id purpose := by
          rw [hout]
          exact List.mem_singleton_self r
        rcases List.mem_filter.mp hrmem with ⟨hrdb, hpred⟩
        simp only [decide_eq_true_eq] at hpred
        have hxr : ¬ x.id = r.id := by
          intro h
          have hxeq := hinj x hx r hrdb h
          rw [hxeq, hpred.2.2.2] at hc
          exact Bool.noConfusion hc
        simp only [OtpService.verify_otp, hscal] at hy
        split at hy
        · rcases mem_updateOtp _ _ _ hy with h2 | h1
          · rw [h2]
          · rcases mem_updateOtp _ _ _ h1 with h2 | h0
            · rw [h2] at hid
              exact absurd hid.symm hxr
            · have hyx := hinj y h0 x hx hid
              rw [hyx]
              exact hc
        · split at hy
          · rcases mem_updateOtp _ _ _ hy with h2 | h1
            · rw [h2]
            · rcases mem_updateOtp _ _ _ h1 with h2 | h0
              · rw [h2] at hid
                exact absurd hid.symm hxr
              · have hyx := hinj y h0 x hx hid
                rw [hyx]
                exact hc
          · rcases mem_updateOtp _ _ _ hy with h2 | h0
            · rw [h2] at hid
              exact absurd hid.symm hxr
            · have hyx := hinj y h0 x hx hid
              rw [hyx]
              exact hc
  · intro x hx _
    by_cases h1 : env.email_valid = false
    · simp only [OtpService.store_and_send_otp, if_pos h1]
      exact hx
    · by_cases h2 : env.send_ok
      · simp only [OtpService.store_and_send_otp, if_neg h1, if_pos h2]
        exact List.mem_append_left _ hx
      · simp only [OtpService.store_and_send_otp, if_neg h1, if_neg h2]
        exact List.mem_append_left _ hx
  · intro htrue
    rcases hscal : scalar_one_or_none
        (OtpService.outstanding db now user_id purpose) with e | o
    · simp [OtpService.verify_otp, hscal] at htrue
    · cases o with
      | none => simp [OtpService.verify_otp, hscal] at htrue
      | some r =>
        have hout := scalar_one_or_none_eq_some _ _ hscal
        have hrmem : r ∈ OtpService.outstanding db now user_id purpose := by
          rw [hout]
          exact List.mem_singleton_self r
        rcases List.mem_filter.mp hrmem with ⟨hrdb, hpred⟩
        simp only [decide_eq_true_eq] at hpred
        simp only [OtpService.verify_otp, hscal] at htrue
        split at htrue
        · rename_i hcode
          exact ⟨r, hrdb, hpred.2.2.2, hcode, hpred.1, hpred.2.1,
                 hpred.2.2.1⟩
        · split at htrue
          · simp at htrue
          · simp at htrue

/-- Witness for C6 on the concrete store `c6Db` (record 1 consumed,
record 2 outstanding), a verify of the outstanding code and a
store-and-send of a fresh code. -/
theorem otp_consumed_is_absorbing_witness :
    (c6Db.map OtpCode.id).Nodup ∧
    ((∀ r ∈ c6Db, r.consumed = true →
        r ∉ OtpService.outstanding c6Db 100 "u1" "email_verification") ∧
     (∀ x ∈ c6Db, x.consumed = true →
        ∀ y ∈ (OtpService.verify_otp c6Db 100 "u1" "222222"
            "email_verification").2, y.id = x.id → y.consumed = true) ∧
     (∀ x ∈ c6Db, x.consumed = true →
        x ∈ (OtpService.store_and_send_otp ⟨true, true⟩ c6Db 100 3 "333333"
               "u1" "a@x.com" "email_verification").2) ∧
     ((OtpService.verify_otp c6Db 100 "u1" "222222"
          "email_verification").1 = .ok true →
        ∃ r ∈ c6Db, r.consumed = false ∧ r.code = "222222" ∧
          r.user_id = "u1" ∧ r.purpose = "email_verification" ∧
          100 < r.expires_at)) :=
  ⟨by decide,
   otp_consumed_is_absorbing c6Db 100 "u1" "222222" "email_verification"
     ⟨true, true⟩ 3 "333333" "a@x.com" (by decide)⟩

/-- C8 counterexample: the claim fails on the code. `verify_password` is a
bare delegation to passlib's `CryptContext.verify`, and on the malformed
hash string "not-a-hash" the call raises UnknownHashError (a ValueError)
instead of returning false — no boolean is returned. -/
theorem verify_password_raises_on_malformed :
    verify_password "secret" "not-a-hash" = .error .unknownHash ∧
    (verify_password "secret" "not-a-hash").isOk = false := by
  refine ⟨?_, ?_⟩ <;> decide

/-- C8 amended: `verify_password` returns a boolean verdict exactly for hash
strings passlib can identify — in particular for every hash produced by
`hash_password` — and on a string without a recognizable bcrypt marker it
raises UnknownHashError rather than returning false. -/
theorem verify_password_total_only_on_identifiable
    (p salt plain h : String) (hmal : bcryptIdentify h = false) :
    bcryptIdentify (hash_password salt plain) = true ∧
    (verify_password p (hash_password salt plain)).isOk = true ∧
    verify_password p h = .error .unknownHash := by
  have hpre : strStartsWith (hash_password salt plain) "$2b$" = true := by
    rw [strStartsWith, List.isPrefixOf_iff_prefix]
    refine ⟨("12$" : String).data ++ salt.data ++
      (("." : String).data ++ (toString (bcryptDigest salt plain)).data), ?_⟩
    simp [String.toList, hash_password, String.data_append]
  have hident : bcryptIdentify (hash_password salt plain) = true := by
    simp [bcryptIdentify, hpre]
  refine ⟨hident, ?_, ?_⟩
  · simp [verify_password, cryptContextVerify, hident, Except.isOk,
      Except.toBool]
  · simp [verify_password, cryptContextVerify, hmal]

/-- Witness for C8 amended, at plaintext "x", salt "ab", password "pw" and
the malformed hash "not-a-hash". -/
theorem verify_password_total_only_on_identifiable_witness :
    bcryptIdentify "not-a-hash" = false ∧
    (bcryptIdentify (hash_password "ab" "pw") = true ∧
     (verify_password "x" (hash_password "ab" "pw")).isOk = true ∧
     verify_password "x" "not-a-hash" = .error .unknownHash) :=
  ⟨by decide,
   verify_password_total_only_on_identifiable "x" "ab" "pw" "not-a-hash"
     (by decide)⟩

/-- C9: login failures are uniform. A request whose lowercased e-mail
matches no user and a request whose e-mail matches a user whose stored hash
rejects the supplied password produce the identical error — the same 401
status and the same "Invalid email or password." detail — and neither run
mints any ledger entry, so the two causes are indistinguishable to the
caller. -/
theorem login_failures_uniform (s : Settings) (users : List User)
    (tokens : List Token) (now newTokenId : Nat) (jti : String)
    (ua ip : Option String) (email1 pw1 email2 pw2 : String) (u : User)
    (h1 : users.filter (fun v => decide (v.email = pyLower email1)) = [])
    (h2 : users.filter (fun v => decide (v.email = pyLower email2)) = [u])
    (h3 : verify_password pw2 u.hashed_password = .ok false) :
    AuthService.login s users tokens now newTokenId jti ua ip email1 pw1
      = (.error (.http ⟨401, "Invalid email or password."⟩), tokens) ∧
    AuthService.login s users tokens now newTokenId jti ua ip email2 pw2
      = (.error (.http ⟨401, "Invalid email or password."⟩), tokens) ∧
    (AuthService.login s users tokens now newTokenId jti ua ip email1
       pw1).1
      = (AuthService.login s users tokens now newTokenId jti ua ip email2
          pw2).1 := by
  have e1 : AuthService.login s users tokens now newTokenId jti ua ip
      email1 pw1
      = (.error (.http ⟨401, "Invalid email or password."⟩), tokens) := by
    simp only [AuthService.login, h1, scalar_one_or_none]
  have e2 : AuthService.login s users tokens now newTokenId jti ua ip
      email2 pw2
      = (.error (.http ⟨401, "Invalid email or password."⟩), tokens) := by
    simp only [AuthService.login, h2, scalar_one_or_none, h3]
  exact ⟨e1, e2, by rw [e1, e2]⟩

/-- Witness for C9: user `c9User` (e-mail bob@x.com, password "right"),
probed with a nonexistent e-mail and with the right e-mail but password
"wrong". -/
theorem login_failures_uniform_witness :
    ([c9User].filter (fun v => decide (v.email = pyLower "nobody@x.com"))
       = []) ∧
    ([c9User].filter (fun v => decide (v.email = pyLower "Bob@X.com"))
       = [c9User]) ∧
    verify_password "wrong" c9User.hashed_password = .ok false ∧
    (AuthService.login ⟨"k", 15, 7⟩ [c9User] [] 50 1 "j" none none
        "nobody@x.com" "pw"
       = (.error (.http ⟨401, "Invalid email or password."⟩), []) ∧
     AuthService.login ⟨"k", 15, 7⟩ [c9User] [] 50 1 "j" none none
         "Bob@X.com" "wrong"
       = (.error (.http ⟨401, "Invalid email or password."⟩), []) ∧
     (AuthService.login ⟨"k", 15, 7⟩ [c9User] [] 50 1 "j" none none
        "nobody@x.com" "pw").1
       = (AuthService.login ⟨"k", 15, 7⟩ [c9User] [] 50 1 "j" none none
           "Bob@X.com" "wrong").1) :=
  ⟨by decide, by decide, by decide,
   login_failures_uniform ⟨"k", 15, 7⟩ [c9User] [] 50 1 "j" none none
     "nobody@x.com" "pw" "Bob@X.com" "wrong" c9User (by decide) (by decide)
     (by decide)⟩

/-- C2: evaluation of signup on an empty store in an environment where the
OTP-delivery step fails (`store_and_send_otp` returns False, its
deliverability re-check having failed). Signup raises the 500 and runs
`session.rollback()`, but the user INSERT was committed before
`store_and_send_otp` was called, so the rollback discards nothing: after
the failed signup the committed user table still holds a row with e-mail
a@x.com — the claimed compensating rollback does not happen. -/
theorem signup_delivery_failure_leaves_user :
    (AuthService.signup c2Env ⟨⟨[], []⟩, []⟩ 100 "u1" "ab" "123456" 1
        c2Req).1
      = .error ⟨500, "Failed to send verification email. Please try again."⟩ ∧
    ((AuthService.signup c2Env ⟨⟨[], []⟩, []⟩ 100 "u1" "ab" "123456" 1
        c2Req).2.users.committed.any fun u => decide (u.email = "a@x.com"))
      = true := by
  refine ⟨?_, ?_⟩ <;> decide

/-- C3: whenever the (spec-modelled) reset flow succeeds, every ledger row
owned by the affected user has been revoked — none remains live at the
reset time — and the user's stored hash is the re-hash of the new
password. -/
theorem reset_password_revokes_all_sessions (st : Store) (now : Nat)
    (user_id new_password salt otp : String)
    (hok : (reset_password st now user_id new_password salt otp).1
             = .ok ()) :
    (∀ t ∈ (reset_password st now user_id new_password salt otp).2.tokens,
       t.user_id = user_id → Token.isLive t now = false) ∧
    (∀ u ∈ (reset_password st now user_id new_password salt otp).2.users,
       u.id = user_id →
         u.hashed_password = hash_password salt new_password) := by
  rcases hv : OtpService.verify_otp st.otps now user_id otp "password_reset"
    with ⟨res, otps1⟩
  cases res with
  | error e => simp [reset_password, hv] at hok
  | ok b =>
    cases b with
    | false => simp [reset_password, hv] at hok
    | true =>
      simp only [reset_password, hv, revoke_all_user_tokens]
      constructor
      · intro t ht hu
        rcases List.mem_map.mp ht with ⟨t0, _, htt⟩
        by_cases hc : t0.user_id = user_id ∧ t0.revoked = false
        · rw [← htt, if_pos hc]
          simp [Token.isLive]
        · rw [← htt, if_neg hc] at hu ⊢
          have hrevoked : t0.revoked = true := by
            cases hrev : t0.revoked
            · exact absurd ⟨hu, hrev⟩ hc
            · rfl
          simp [Token.isLive, hrevoked]
      · intro u hu huid
        rcases List.mem_map.mp hu with ⟨u0, _, huu⟩
        by_cases hc : u0.id = user_id
        · rw [← huu, if_pos hc]
        · rw [← huu, if_neg hc] at huid ⊢
          exact absurd huid hc

/-- Witness for C3: store `c3Store` (three ledger rows of user u1, two of
them live, and a live row of user u2), resetting with the outstanding
password-reset code. -/
theorem reset_password_revokes_all_sessions_witness :
    (reset_password c3Store 100 "u1" "NewPass1!" "cd" "654321").1
      = .ok () ∧
    ((∀ t ∈ (reset_password c3Store 100 "u1" "NewPass1!" "cd"
         "654321").2.tokens,
        t.user_id = "u1" → Token.isLive t 100 = false) ∧
     (∀ u ∈ (reset_password c3Store 100 "u1" "NewPass1!" "cd"
         "654321").2.users,
        u.id = "u1" →
          u.hashed_password = hash_password "cd" "NewPass1!")) :=
  ⟨by decide,
   reset_password_revokes_all_sessions c3Store 100 "u1" "NewPass1!" "cd"
     "654321" (by decide)⟩

end Inkboard
